import Mathlib

/-!
Shallow embedding of the `commitment_core` Soroban contract
(`src/contracts/commitment_core/src/lib.rs`).

Addresses and commitment identifiers are embedded as `String`; `i128`
amounts as `Int`; `u64` timestamps and `u32` rule fields as `Nat`.
Contract storage (instance and persistent tiers) is embedded as a single
explicit `State` record; the ledger timestamp is passed as a `now`
parameter.  Panics in the source (`panic_unauthorized`, `panic!("Commitment
not found")`, ...) are embedded as `Except` errors; external asset
transfers performed through `invoke_contract` are recorded in a `transfers`
log on the state.
-/

/-- Mirrors `CommitmentRules` (lib.rs lines 12-18). -/
structure CommitmentRules where
  duration_days : Nat
  max_loss_percent : Nat
  commitment_type : String
  early_exit_penalty : Nat
  min_fee_threshold : Int
deriving DecidableEq, Repr

/-- Mirrors `Commitment` (lib.rs lines 22-33). -/
structure Commitment where
  commitment_id : String
  owner : String
  nft_token_id : Nat
  rules : CommitmentRules
  amount : Int
  asset_address : String
  created_at : Nat
  expires_at : Nat
  current_value : Int
  status : String
deriving DecidableEq, Repr

/-- Mirrors `Allocation` (lib.rs lines 37-42). -/
structure Allocation where
  commitment_id : String
  target_pool : String
  amount : Int
  timestamp : Nat
deriving DecidableEq, Repr

/-- Mirrors `AllocationTracking` (lib.rs lines 46-49); the Soroban `Vec` is
embedded as a `List`. -/
structure AllocationTracking where
  total_allocated : Int
  allocations : List Allocation
deriving DecidableEq, Repr

/-- The error conditions of the contract: the variants of the
`CommitmentError` enum (lib.rs lines 205-211) together with the panic
messages of the `panic_*` helpers (lib.rs lines 64-86), which are embedded
as error values rather than aborts. -/
inductive CommitmentError where
  | NotFound
  | AlreadySettled
  | NotExpired
  | Unauthorized
  | InvalidRules
  | InsufficientBalance
  | InactiveCommitment
  | TransferFailed
  | AlreadyInitialized
  | InvalidAmount
deriving DecidableEq, Repr

/-- One external asset movement performed through `transfer_asset`
(lib.rs lines 166-184). -/
structure Transfer where
  asset : String
  src : String
  dst : String
  amount : Int
deriving DecidableEq, Repr

/-- The contract's storage.  `authorized` embeds the
`DataKey::AuthorizedAllocator` entries, `commitments` the stored
`Commitment` records (the source reads them through both the
`get_commitment`/`set_commitment` helper pair and the
`read_commitment`/`set_commitment` pair; both families are embedded as
this single map), `balances` the `DataKey::CommitmentBalance` entries and
`tracking` the `DataKey::AllocationTracking` entries.  `next_id` is the
monotonic identifier counter required by the spec for commitment creation
(spec section 4.2); `transfers` logs the external transfers issued so far. -/
structure State where
  admin : Option String
  initialized : Bool
  authorized : String → Option Bool
  commitments : String → Option Commitment
  balances : String → Option Int
  tracking : String → Option AllocationTracking
  next_id : Nat
  transfers : List Transfer

/-- The contract's own address (`e.current_contract_address()`). -/
def contract_address : String := "commitment_core_contract"

/-- Mirrors `is_authorized_allocator` (lib.rs lines 104-111): a missing
entry and a stored `false` both read as `false`. -/
def is_authorized_allocator (s : State) (allocator : String) : Bool :=
  (s.authorized allocator).getD false

/-- Mirrors `get_commitment` / `read_commitment` (lib.rs lines 118-121 and
214-217). -/
def get_commitment (s : State) (commitment_id : String) : Option Commitment :=
  s.commitments commitment_id

/-- Mirrors `set_commitment` (lib.rs lines 123-126 and 219-222). -/
def set_commitment (s : State) (c : Commitment) : State :=
  { s with commitments := fun x => if x = c.commitment_id then some c else s.commitments x }

/-- Mirrors `get_commitment_balance` (lib.rs lines 128-131): absent reads
as `0`. -/
def get_commitment_balance (s : State) (commitment_id : String) : Int :=
  (s.balances commitment_id).getD 0

/-- Mirrors `set_commitment_balance` (lib.rs lines 133-136). -/
def set_commitment_balance (s : State) (commitment_id : String) (balance : Int) : State :=
  { s with balances := fun x => if x = commitment_id then some balance else s.balances x }

/-- Mirrors `get_allocation_tracking` (lib.rs lines 138-144): absent reads
as an all-zero record. -/
def get_allocation_tracking (s : State) (commitment_id : String) : AllocationTracking :=
  (s.tracking commitment_id).getD { total_allocated := 0, allocations := [] }

/-- Mirrors `set_allocation_tracking` (lib.rs lines 146-149). -/
def set_allocation_tracking (s : State) (commitment_id : String)
    (t : AllocationTracking) : State :=
  { s with tracking := fun x => if x = commitment_id then some t else s.tracking x }

/-- Mirrors `transfer_asset` (lib.rs lines 166-184): panics `InvalidAmount`
on `amount <= 0`, otherwise invokes the asset contract's transfer, which is
embedded as appending to the transfer log. -/
def transfer_asset (s : State) (asset src dst : String) (amount : Int) :
    Except CommitmentError State :=
  if amount ≤ 0 then .error .InvalidAmount
  else .ok { s with transfers := s.transfers ++ [⟨asset, src, dst, amount⟩] }

/-- Mirrors `check_violations` (lib.rs lines 299-331).  The ledger
timestamp `e.ledger().timestamp()` is the `now` parameter; the Rust `i128`
division truncates toward zero, embedded as `Int.tdiv`. -/
def check_violations (s : State) (now : Nat) (commitment_id : String) :
    Except CommitmentError Bool :=
  match get_commitment s commitment_id with
  | none => .error .NotFound
  | some c =>
    if c.status ≠ "active" then .ok false
    else
      let loss_amount := c.amount - c.current_value
      let loss_percent : Int :=
        if 0 < c.amount then Int.tdiv (loss_amount * 100) c.amount else 0
      let max_loss : Int := (c.rules.max_loss_percent : Int)
      let loss_violated : Bool := decide (max_loss < loss_percent)
      let duration_violated : Bool := decide (c.expires_at ≤ now)
      .ok (loss_violated || duration_violated)

/-- Mirrors `get_violation_details` (lib.rs lines 335-369). -/
def get_violation_details (s : State) (now : Nat) (commitment_id : String) :
    Except CommitmentError (Bool × Bool × Bool × Int × Nat) :=
  match get_commitment s commitment_id with
  | none => .error .NotFound
  | some c =>
    let loss_amount := c.amount - c.current_value
    let loss_percent : Int :=
      if 0 < c.amount then Int.tdiv (loss_amount * 100) c.amount else 0
    let max_loss : Int := (c.rules.max_loss_percent : Int)
    let loss_violated : Bool := decide (max_loss < loss_percent)
    let duration_violated : Bool := decide (c.expires_at ≤ now)
    let time_remaining : Nat := if now < c.expires_at then c.expires_at - now else 0
    let has_violations : Bool := loss_violated || duration_violated
    .ok (has_violations, loss_violated, duration_violated, loss_percent, time_remaining)

/-- Mirrors `allocate` (lib.rs lines 408-472).  The checks run in source
order: allocator authorization, existence, active status, free balance,
then `transfer_asset` (which rejects `amount <= 0`); on success the free
balance is decremented, an `Allocation` is appended and `total_allocated`
is incremented. -/
def allocate (s : State) (now : Nat) (caller commitment_id target_pool : String)
    (amount : Int) : Except CommitmentError State :=
  if is_authorized_allocator s caller = false then .error .Unauthorized
  else
    match get_commitment s commitment_id with
    | none => .error .InactiveCommitment
    | some c =>
      if c.status ≠ "active" then .error .InactiveCommitment
      else
        let balance := get_commitment_balance s commitment_id
        if balance < amount then .error .InsufficientBalance
        else
          match transfer_asset s c.asset_address contract_address target_pool amount with
          | .error e => .error e
          | .ok s1 =>
            let s2 := set_commitment_balance s1 commitment_id (balance - amount)
            let tracking := get_allocation_tracking s2 commitment_id
            let a : Allocation := ⟨commitment_id, target_pool, amount, now⟩
            let tracking' : AllocationTracking :=
              ⟨tracking.total_allocated + amount, tracking.allocations ++ [a]⟩
            .ok (set_allocation_tracking s2 commitment_id tracking')

/-- Mirrors `deallocate` (lib.rs lines 487-527): authorization and
existence are checked, but not the status; the free balance is incremented
and `total_allocated` decremented with a clamp at zero
(lib.rs lines 509-512); the `allocations` list is not touched. -/
def deallocate (s : State) (caller commitment_id target_pool : String)
    (amount : Int) : Except CommitmentError State :=
  if is_authorized_allocator s caller = false then .error .Unauthorized
  else
    match get_commitment s commitment_id with
    | none => .error .InactiveCommitment
    | some c =>
      match transfer_asset s c.asset_address target_pool contract_address amount with
      | .error e => .error e
      | .ok s1 =>
        let balance := get_commitment_balance s1 commitment_id
        let s2 := set_commitment_balance s1 commitment_id (balance + amount)
        let tracking := get_allocation_tracking s2 commitment_id
        let t := tracking.total_allocated - amount
        let t' := if t < 0 then 0 else t
        .ok (set_allocation_tracking s2 commitment_id ⟨t', tracking.allocations⟩)

/-! ## Basic storage lemmas -/

theorem get_allocation_tracking_set_allocation_tracking (s : State) (cid id : String)
    (t : AllocationTracking) :
    get_allocation_tracking (set_allocation_tracking s cid t) id =
      if id = cid then t else get_allocation_tracking s id := by
  by_cases h : id = cid <;>
    simp [get_allocation_tracking, set_allocation_tracking, h]

theorem get_allocation_tracking_set_commitment_balance (s : State) (cid id : String)
    (b : Int) :
    get_allocation_tracking (set_commitment_balance s cid b) id =
      get_allocation_tracking s id := rfl

theorem get_commitment_balance_set_commitment_balance (s : State) (cid id : String)
    (b : Int) :
    get_commitment_balance (set_commitment_balance s cid b) id =
      if id = cid then b else get_commitment_balance s id := by
  by_cases h : id = cid <;>
    simp [get_commitment_balance, set_commitment_balance, h]

theorem get_commitment_balance_set_allocation_tracking (s : State) (cid id : String)
    (t : AllocationTracking) :
    get_commitment_balance (set_allocation_tracking s cid t) id =
      get_commitment_balance s id := rfl

theorem transfer_asset_ok {s s' : State} {asset src dst : String} {amount : Int}
    (h : transfer_asset s asset src dst amount = .ok s') :
    0 < amount ∧ s' = { s with transfers := s.transfers ++ [⟨asset, src, dst, amount⟩] } := by
  unfold transfer_asset at h
  split at h
  · exact absurd h (by simp)
  · exact ⟨by omega, by injection h with h; exact h.symm⟩

/-! ## Concrete fixtures used by witnesses -/

/-- Rules with a 30-day duration and a 10% loss limit, as in the tests. -/
def ex_rules : CommitmentRules :=
  { duration_days := 30
    max_loss_percent := 10
    commitment_type := "balanced"
    early_exit_penalty := 10
    min_fee_threshold := 1000 }

/-- An active commitment of 1000 marked down to 850 (15% loss). -/
def ex_commitment : Commitment :=
  { commitment_id := "c1"
    owner := "owner1"
    nft_token_id := 1
    rules := ex_rules
    amount := 1000
    asset_address := "asset1"
    created_at := 1000
    expires_at := 1000 + 30 * 86400
    current_value := 850
    status := "active" }

/-- A commitment already settled. -/
def ex_settled : Commitment :=
  { ex_commitment with commitment_id := "c2", current_value := 1000, status := "settled" }

/-- A zero-amount active commitment. -/
def ex_zero : Commitment :=
  { ex_commitment with commitment_id := "c0", amount := 0, current_value := 0 }

/-- A storage state holding the three fixture commitments, a free balance of
1000 for `c1`, and one authorized allocator `alloc1`. -/
def ex_state : State :=
  { admin := some "admin1"
    initialized := true
    authorized := fun a => if a = "alloc1" then some true else none
    commitments := fun cid =>
      if cid = "c1" then some ex_commitment
      else if cid = "c2" then some ex_settled
      else if cid = "c0" then some ex_zero
      else none
    balances := fun cid => if cid = "c1" then some 1000 else none
    tracking := fun _ => none
    next_id := 3
    transfers := [] }

/-! ## C3, C7, C8: the violation engine -/

/-- C3: for a stored commitment with status `"active"` and `amount > 0`,
`check_violations` returns `true` exactly when the truncating division
`(amount - current_value) * 100 / amount` strictly exceeds
`rules.max_loss_percent`, or `now >= expires_at`; in particular a loss
exactly equal to the threshold does not by itself yield `true`. -/
theorem check_violations_active_characterization (s : State) (now : Nat)
    (cid : String) (c : Commitment)
    (hc : get_commitment s cid = some c)
    (hst : c.status = "active") (hamt : 0 < c.amount) :
    check_violations s now cid = .ok true ↔
      ((c.rules.max_loss_percent : Int) <
          Int.tdiv ((c.amount - c.current_value) * 100) c.amount
        ∨ c.expires_at ≤ now) := by
  unfold check_violations
  rw [hc]
  simp [hst, hamt]

theorem check_violations_active_characterization_witness :
    check_violations ex_state 434200 "c1" = .ok true ↔
      ((ex_commitment.rules.max_loss_percent : Int) <
          Int.tdiv ((ex_commitment.amount - ex_commitment.current_value) * 100)
            ex_commitment.amount
        ∨ ex_commitment.expires_at ≤ 434200) :=
  check_violations_active_characterization ex_state 434200 "c1" ex_commitment
    (by decide) (by decide) (by decide)

/-- C7: for a stored commitment with `amount <= 0`, the loss percentage is
computed as `0` without any division, the loss flag is `false`, and only
the duration condition `now >= expires_at` can report a violation, both in
`get_violation_details` and (when the status is active) in
`check_violations`. -/
theorem zero_amount_loss_percent_zero (s : State) (now : Nat) (cid : String)
    (c : Commitment) (hc : get_commitment s cid = some c) (hamt : c.amount ≤ 0) :
    get_violation_details s now cid =
      .ok (decide (c.expires_at ≤ now), false, decide (c.expires_at ≤ now), 0,
        if now < c.expires_at then c.expires_at - now else 0) ∧
    (c.status = "active" →
      check_violations s now cid = .ok (decide (c.expires_at ≤ now))) := by
  have hmax : ¬ ((c.rules.max_loss_percent : Int) < 0) := by
    simp [Int.not_lt]
  constructor
  · unfold get_violation_details
    rw [hc]
    simp [show ¬ (0 < c.amount) by omega, hmax]
  · intro hst
    unfold check_violations
    rw [hc]
    simp [hst, show ¬ (0 < c.amount) by omega, hmax]

theorem zero_amount_loss_percent_zero_witness :
    get_violation_details ex_state 2000 "c0" =
      .ok (decide (ex_zero.expires_at ≤ 2000), false, decide (ex_zero.expires_at ≤ 2000), 0,
        if 2000 < ex_zero.expires_at then ex_zero.expires_at - 2000 else 0) ∧
    (ex_zero.status = "active" →
      check_violations ex_state 2000 "c0" = .ok (decide (ex_zero.expires_at ≤ 2000))) :=
  zero_amount_loss_percent_zero ex_state 2000 "c0" ex_zero (by decide) (by decide)

/-- C8: `check_violations` on a stored commitment whose status is not
`"active"` returns `false` for every ledger time (so independently of the
loss and duration conditions), and fails `NotFound` for an absent
identifier.  The embedding returns no state because the source function
only reads storage: it cannot mutate any record. -/
theorem check_violations_inactive_readonly (s : State) (cid : String) :
    (∀ c, get_commitment s cid = some c → c.status ≠ "active" →
      ∀ now, check_violations s now cid = .ok false) ∧
    (get_commitment s cid = none →
      ∀ now, check_violations s now cid = .error .NotFound) := by
  constructor
  · intro c hc hst now
    unfold check_violations
    rw [hc]
    simp [hst]
  · intro hc now
    unfold check_violations
    rw [hc]

theorem check_violations_inactive_readonly_witness :
    check_violations ex_state 434200 "c2" = .ok false ∧
    check_violations ex_state 434200 "missing" = .error .NotFound :=
  ⟨(check_violations_inactive_readonly ex_state "c2").1 ex_settled (by decide)
      (by decide) 434200,
    (check_violations_inactive_readonly ex_state "missing").2 (by decide) 434200⟩

/-! ## Inversion lemmas for `allocate` and `deallocate` -/

theorem allocate_ok_eq {s s' : State} {now : Nat} {caller cid pool : String}
    {amount : Int} (h : allocate s now caller cid pool amount = .ok s') :
    ∃ c, is_authorized_allocator s caller = true ∧
      get_commitment s cid = some c ∧ c.status = "active" ∧
      0 < amount ∧ amount ≤ get_commitment_balance s cid ∧
      s' = set_allocation_tracking
            (set_commitment_balance
              { s with transfers :=
                  s.transfers ++ [⟨c.asset_address, contract_address, pool, amount⟩] }
              cid (get_commitment_balance s cid - amount))
            cid
            ⟨(get_allocation_tracking s cid).total_allocated + amount,
              (get_allocation_tracking s cid).allocations ++ [⟨cid, pool, amount, now⟩]⟩ := by
  unfold allocate at h
  split at h
  · exact absurd h (by simp)
  · rename_i hauth
    split at h
    · exact absurd h (by simp)
    · rename_i c hm
      split at h
      · exact absurd h (by simp)
      · rename_i hst
        split at h
        · rename_i e htr
          simp only [] at h
          split at h
          · exact absurd h (by simp)
          · exact absurd h (by simp)
        · rename_i s1 htr
          simp only [] at h
          split at h
          · exact absurd h (by simp)
          · rename_i hbal
            obtain ⟨hpos, rfl⟩ := transfer_asset_ok htr
            refine ⟨c, by simpa using hauth, hm, by simpa using hst, hpos, by omega, ?_⟩
            injection h with h
            exact h.symm

theorem deallocate_ok_eq {s s' : State} {caller cid pool : String}
    {amount : Int} (h : deallocate s caller cid pool amount = .ok s') :
    ∃ c, is_authorized_allocator s caller = true ∧
      get_commitment s cid = some c ∧ 0 < amount ∧
      s' = set_allocation_tracking
            (set_commitment_balance
              { s with transfers :=
                  s.transfers ++ [⟨c.asset_address, pool, contract_address, amount⟩] }
              cid (get_commitment_balance s cid + amount))
            cid
            ⟨if (get_allocation_tracking s cid).total_allocated - amount < 0 then 0
                else (get_allocation_tracking s cid).total_allocated - amount,
              (get_allocation_tracking s cid).allocations⟩ := by
  unfold deallocate at h
  split at h
  · exact absurd h (by simp)
  · rename_i hauth
    split at h
    · exact absurd h (by simp)
    · rename_i c hm
      split at h
      · exact absurd h (by simp)
      · rename_i s1 htr
        obtain ⟨hpos, rfl⟩ := transfer_asset_ok htr
        refine ⟨c, by simpa using hauth, hm, hpos, ?_⟩
        injection h with h
        exact h.symm

/-! ## C6: error conditions of `allocate` -/

/-- C6: under the source's check order, `allocate` fails `Unauthorized`
when the caller is not marked `true` in the allocator allow-list;
`InactiveCommitment` when the commitment is absent or not active;
`InvalidAmount` when `amount <= 0` (raised inside `transfer_asset`);
`InsufficientBalance` when the free balance is below `amount`; and it
returns a new state only when none of these conditions hold.  The stored
free balance is assumed nonnegative, as it is in every reachable state;
with that, the `InvalidAmount` and `InsufficientBalance` conditions are
disjoint. -/
theorem allocate_error_conditions (s : State) (now : Nat)
    (caller cid pool : String) (amount : Int)
    (hb : 0 ≤ get_commitment_balance s cid) :
    (is_authorized_allocator s caller = false →
      allocate s now caller cid pool amount = .error .Unauthorized) ∧
    (is_authorized_allocator s caller = true →
      (get_commitment s cid = none →
        allocate s now caller cid pool amount = .error .InactiveCommitment) ∧
      (∀ c, get_commitment s cid = some c →
        (c.status ≠ "active" →
          allocate s now caller cid pool amount = .error .InactiveCommitment) ∧
        (c.status = "active" →
          (amount ≤ 0 →
            allocate s now caller cid pool amount = .error .InvalidAmount) ∧
          (get_commitment_balance s cid < amount →
            allocate s now caller cid pool amount = .error .InsufficientBalance) ∧
          (0 < amount → amount ≤ get_commitment_balance s cid →
            ∃ s', allocate s now caller cid pool amount = .ok s')))) := by
  constructor
  · intro hauth
    unfold allocate
    simp [hauth]
  · intro hauth
    constructor
    · intro hc
      unfold allocate
      rw [hc]
      simp [hauth]
    · intro c hc
      constructor
      · intro hst
        unfold allocate
        rw [hc]
        simp [hauth, hst]
      · intro hst
        refine ⟨?_, ?_, ?_⟩
        · intro hamt
          unfold allocate
          rw [hc]
          simp [hauth, hst, transfer_asset, hamt, show ¬ get_commitment_balance s cid < amount by omega]
        · intro hbal
          unfold allocate
          rw [hc]
          simp [hauth, hst, hbal]
        · intro hamt hbal
          unfold allocate
          rw [hc]
          simp [hauth, hst, transfer_asset,
            show ¬ get_commitment_balance s cid < amount by omega,
            show ¬ amount ≤ 0 by omega]

theorem allocate_error_conditions_witness :
    ∃ s', allocate ex_state 2000 "alloc1" "c1" "pool1" 100 = .ok s' :=
  (((allocate_error_conditions ex_state 2000 "alloc1" "c1" "pool1" 100
      (by decide)).2 (by decide)).2 ex_commitment (by decide)).2 (by decide) |>.2.2
    (by decide) (by decide)

/-! ## C9, C10: `deallocate` -/

/-- C9: `deallocate` checks only allocator authorization and that the
commitment record exists — it never looks at the status, so it transfers
and updates the free balance and `total_allocated` even for a settled,
violated or early-exit commitment.  (`0 < amount` is required by the
`transfer_asset` call the operation performs.) -/
theorem deallocate_ignores_status (s : State) (caller cid pool : String)
    (amount : Int) (c : Commitment)
    (hauth : is_authorized_allocator s caller = true)
    (hc : get_commitment s cid = some c)
    (hamt : 0 < amount) :
    ∃ s', deallocate s caller cid pool amount = .ok s' ∧
      s'.transfers = s.transfers ++ [⟨c.asset_address, pool, contract_address, amount⟩] ∧
      get_commitment_balance s' cid = get_commitment_balance s cid + amount ∧
      (get_allocation_tracking s' cid).total_allocated =
        max 0 ((get_allocation_tracking s cid).total_allocated - amount) := by
  have hde : deallocate s caller cid pool amount =
      .ok (set_allocation_tracking
        (set_commitment_balance
          { s with transfers :=
              s.transfers ++ [⟨c.asset_address, pool, contract_address, amount⟩] }
          cid (get_commitment_balance s cid + amount))
        cid
        ⟨if (get_allocation_tracking s cid).total_allocated - amount < 0 then 0
            else (get_allocation_tracking s cid).total_allocated - amount,
          (get_allocation_tracking s cid).allocations⟩) := by
    simp only [deallocate, hc]
    rw [if_neg (by simp [hauth])]
    rw [show transfer_asset s c.asset_address pool contract_address amount =
        .ok { s with transfers :=
          s.transfers ++ [⟨c.asset_address, pool, contract_address, amount⟩] } by
      unfold transfer_asset
      rw [if_neg (by omega)]]
    rfl
  refine ⟨_, hde, rfl, ?_, ?_⟩
  · rw [get_commitment_balance_set_allocation_tracking,
      get_commitment_balance_set_commitment_balance, if_pos rfl]
  · rw [get_allocation_tracking_set_allocation_tracking, if_pos rfl]
    have htr : get_allocation_tracking (set_commitment_balance
        { s with transfers :=
            s.transfers ++ [⟨c.asset_address, pool, contract_address, amount⟩] }
        cid (get_commitment_balance s cid + amount)) cid =
        get_allocation_tracking s cid := rfl
    simp only [Int.max_def]
    split <;> split <;> omega

theorem deallocate_ignores_status_witness :
    ∃ s', deallocate ex_state "alloc1" "c2" "pool1" 50 = .ok s' ∧
      s'.transfers = ex_state.transfers ++
        [⟨ex_settled.asset_address, "pool1", contract_address, 50⟩] ∧
      get_commitment_balance s' "c2" = get_commitment_balance ex_state "c2" + 50 ∧
      (get_allocation_tracking s' "c2").total_allocated =
        max 0 ((get_allocation_tracking ex_state "c2").total_allocated - 50) :=
  deallocate_ignores_status ex_state "alloc1" "c2" "pool1" 50 ex_settled
    (by decide) (by decide) (by decide)

/-- C10: a successful `deallocate` never touches the `allocations` list of
any tracking record — the list records allocations only; it also leaves
every commitment record and the allow-list unchanged, and changes the
free balance and tracking record only at the deallocated identifier. -/
theorem deallocate_preserves_allocations (s s' : State) (caller cid pool : String)
    (amount : Int) (h : deallocate s caller cid pool amount = .ok s') :
    (∀ id, (get_allocation_tracking s' id).allocations =
        (get_allocation_tracking s id).allocations) ∧
    s'.commitments = s.commitments ∧
    s'.authorized = s.authorized ∧
    (∀ id, id ≠ cid →
      get_commitment_balance s' id = get_commitment_balance s id ∧
      get_allocation_tracking s' id = get_allocation_tracking s id) := by
  obtain ⟨c, hauth, hc, hamt, rfl⟩ := deallocate_ok_eq h
  refine ⟨?_, rfl, rfl, ?_⟩
  · intro id
    rw [get_allocation_tracking_set_allocation_tracking]
    by_cases hid : id = cid
    · subst hid
      rw [if_pos rfl]
    · rw [if_neg hid]
      rfl
  · intro id hid
    refine ⟨?_, ?_⟩
    · rw [get_commitment_balance_set_allocation_tracking,
        get_commitment_balance_set_commitment_balance, if_neg hid]
      rfl
    · rw [get_allocation_tracking_set_allocation_tracking, if_neg hid]
      rfl

theorem deallocate_preserves_allocations_witness :
    ∃ s', deallocate ex_state "alloc1" "c1" "pool1" 7 = .ok s' ∧
      ∀ id, (get_allocation_tracking s' id).allocations =
        (get_allocation_tracking ex_state id).allocations := by
  refine ⟨_, rfl, ?_⟩
  exact (deallocate_preserves_allocations ex_state _ "alloc1" "c1" "pool1" 7 rfl).1

/-! ## C1: allocation-accounting over call sequences -/

/-- One allocation-subsystem call on a fixed commitment: the target pool
and amount of an `allocate` or `deallocate` invocation. -/
inductive AllocOp where
  | alloc (target_pool : String) (amount : Int)
  | dealloc (target_pool : String) (amount : Int)
deriving DecidableEq, Repr

/-- Perform one call. -/
def apply_alloc_op (caller cid : String) (now : Nat) (s : State) :
    AllocOp → Except CommitmentError State
  | .alloc pool a => allocate s now caller cid pool a
  | .dealloc pool a => deallocate s caller cid pool a

/-- Perform a sequence of calls, stopping at the first failure: a run that
returns `.ok` is exactly a sequence of successful calls. -/
def run_alloc_ops (caller cid : String) (now : Nat) (s : State) :
    List AllocOp → Except CommitmentError State
  | [] => .ok s
  | op :: rest =>
    match apply_alloc_op caller cid now s op with
    | .error e => .error e
    | .ok s1 => run_alloc_ops caller cid now s1 rest

/-- Sum of the amounts of the `allocate` calls in a sequence. -/
def sum_allocs : List AllocOp → Int
  | [] => 0
  | .alloc _ a :: r => a + sum_allocs r
  | .dealloc _ _ :: r => sum_allocs r

/-- Sum of the amounts of the `deallocate` calls in a sequence. -/
def sum_deallocs : List AllocOp → Int
  | [] => 0
  | .alloc _ _ :: r => sum_deallocs r
  | .dealloc _ a :: r => a + sum_deallocs r

/-- Starting from a running total `t`, every deallocation in the sequence
deallocates at most the running total at that point. -/
def dealloc_bounded : Int → List AllocOp → Prop
  | _, [] => True
  | t, .alloc _ a :: r => dealloc_bounded (t + a) r
  | t, .dealloc _ a :: r => a ≤ t ∧ dealloc_bounded (t - a) r

theorem allocate_ok_total {s s' : State} {now : Nat} {caller cid pool : String}
    {amount : Int} (h : allocate s now caller cid pool amount = .ok s') :
    0 < amount ∧
    (get_allocation_tracking s' cid).total_allocated =
      (get_allocation_tracking s cid).total_allocated + amount := by
  obtain ⟨c, -, -, -, hpos, -, rfl⟩ := allocate_ok_eq h
  exact ⟨hpos, by rw [get_allocation_tracking_set_allocation_tracking, if_pos rfl]⟩

theorem deallocate_ok_total {s s' : State} {caller cid pool : String}
    {amount : Int} (h : deallocate s caller cid pool amount = .ok s') :
    0 < amount ∧
    (get_allocation_tracking s' cid).total_allocated =
      (if (get_allocation_tracking s cid).total_allocated - amount < 0 then 0
        else (get_allocation_tracking s cid).total_allocated - amount) := by
  obtain ⟨c, -, -, hpos, rfl⟩ := deallocate_ok_eq h
  exact ⟨hpos, by rw [get_allocation_tracking_set_allocation_tracking, if_pos rfl]⟩

theorem run_alloc_ops_total (caller cid : String) (now : Nat) (ops : List AllocOp) :
    ∀ (s s' : State), run_alloc_ops caller cid now s ops = .ok s' →
      (0 ≤ (get_allocation_tracking s cid).total_allocated →
        0 ≤ (get_allocation_tracking s' cid).total_allocated) ∧
      (dealloc_bounded (get_allocation_tracking s cid).total_allocated ops →
        (get_allocation_tracking s' cid).total_allocated =
          (get_allocation_tracking s cid).total_allocated +
            sum_allocs ops - sum_deallocs ops) := by
  induction ops with
  | nil =>
    intro s s' h
    injection h with h
    subst h
    exact ⟨id, fun _ => by simp [sum_allocs, sum_deallocs]⟩
  | cons op rest ih =>
    intro s s' h
    unfold run_alloc_ops at h
    cases hop : apply_alloc_op caller cid now s op with
    | error e =>
      rw [hop] at h
      exact absurd h (by simp)
    | ok s1 =>
      rw [hop] at h
      obtain ⟨ih1, ih2⟩ := ih s1 s' h
      cases op with
      | alloc pool a =>
        obtain ⟨hpos, ht⟩ := allocate_ok_total (hop :
          allocate s now caller cid pool a = .ok s1)
        constructor
        · intro h0
          exact ih1 (by omega)
        · intro hb
          rw [ih2 (by rw [ht]; exact hb), ht]
          simp only [sum_allocs, sum_deallocs]
          ring
      | dealloc pool a =>
        obtain ⟨hpos, ht⟩ := deallocate_ok_total (hop :
          deallocate s caller cid pool a = .ok s1)
        constructor
        · intro h0
          refine ih1 ?_
          rw [ht]
          split <;> omega
        · intro hb
          obtain ⟨hle, hb'⟩ := hb
          have hts : (get_allocation_tracking s1 cid).total_allocated =
              (get_allocation_tracking s cid).total_allocated - a := by
            rw [ht, if_neg (by omega)]
          rw [ih2 (by rw [hts]; exact hb'), hts]
          simp only [sum_allocs, sum_deallocs]
          ring

/-- C1 as stated fails on the code: starting from a fresh tracking record
with a free balance of 1000, `allocate` of 10 then `deallocate` of 20 are
both successful calls, after which the stored `total_allocated` is `0`
(clamped by `deallocate`), not the net sum `10 - 20 = -10`. -/
theorem total_allocated_net_sum_counterexample :
    (run_alloc_ops "alloc1" "c1" 2000 ex_state
        [.alloc "pool1" 10, .dealloc "pool1" 20]).map
      (fun s => (get_allocation_tracking s "c1").total_allocated) = .ok 0 ∧
    sum_allocs [AllocOp.alloc "pool1" 10, AllocOp.dealloc "pool1" 20] -
      sum_deallocs [AllocOp.alloc "pool1" 10, AllocOp.dealloc "pool1" 20] = -10 := by
  exact ⟨rfl, rfl⟩

/-- C1 (amended): over any sequence of successful `allocate`/`deallocate`
calls on a commitment whose tracking record starts at zero,
`total_allocated` is never negative, and it equals the sum of the
allocation amounts minus the sum of the deallocation amounts provided no
deallocation exceeds the running total at its point in the sequence
(otherwise `deallocate` clamps the total at zero). -/
theorem total_allocated_clamped_net_sum (s0 s' : State) (caller cid : String)
    (now : Nat) (ops : List AllocOp)
    (h0 : (get_allocation_tracking s0 cid).total_allocated = 0)
    (h : run_alloc_ops caller cid now s0 ops = .ok s') :
    0 ≤ (get_allocation_tracking s' cid).total_allocated ∧
    (dealloc_bounded 0 ops →
      (get_allocation_tracking s' cid).total_allocated =
        sum_allocs ops - sum_deallocs ops) := by
  obtain ⟨h1, h2⟩ := run_alloc_ops_total caller cid now ops s0 s' h
  rw [h0] at h1 h2
  refine ⟨h1 le_rfl, fun hb => ?_⟩
  rw [h2 hb]
  ring

theorem total_allocated_clamped_net_sum_witness :
    ∃ s', run_alloc_ops "alloc1" "c1" 2000 ex_state
        [.alloc "pool1" 10, .dealloc "pool1" 5] = .ok s' ∧
      0 ≤ (get_allocation_tracking s' "c1").total_allocated ∧
      (dealloc_bounded 0 [AllocOp.alloc "pool1" 10, AllocOp.dealloc "pool1" 5] →
        (get_allocation_tracking s' "c1").total_allocated =
          sum_allocs [AllocOp.alloc "pool1" 10, AllocOp.dealloc "pool1" 5] -
            sum_deallocs [AllocOp.alloc "pool1" 10, AllocOp.dealloc "pool1" 5]) := by
  refine ⟨_, rfl, ?_⟩
  exact total_allocated_clamped_net_sum ex_state _ "alloc1" "c1" 2000 _ (by decide) rfl

/-! ## Spec-modelled operations

`create_commitment`, `update_value` and `settle` exist in the source only
as TODO stubs (lib.rs lines 266-279, 290-295 and 372-379): they validate
nothing, store nothing and perform no transfer.  The definitions below are
modelled from the spec (sections 4.2 and 4.3) instead. -/

theorem get_commitment_set_commitment (s : State) (c : Commitment) (id : String) :
    get_commitment (set_commitment s c) id =
      if id = c.commitment_id then some c else get_commitment s id := by
  by_cases h : id = c.commitment_id <;> simp [get_commitment, set_commitment, h]

/-- Modelled from the spec: commitment identifiers come from a monotonic
counter "formatted as a string, never reused" (spec sections 3, 4.2 and 9);
the source's `create_commitment` stub never generates identifiers, so the
rendering is chosen here as the counter value in unary, which is a
collision-free string encoding. -/
def id_of_counter (n : Nat) : String := ⟨List.replicate n 'c'⟩

theorem id_of_counter_injective : Function.Injective id_of_counter := by
  intro m n h
  have h2 := congrArg (fun t => t.data.length) h
  simpa [id_of_counter] using h2

/-- Modelled from the spec: `create_commitment` in the source
(lib.rs lines 266-279) is an unimplemented TODO stub.  Spec section 4.2:
validate `amount > 0` (else `InvalidAmount`), `duration_days > 0` and
`max_loss_percent <= 100` (else `InvalidRules`); transfer `amount` from the
owner into contract custody; allocate a fresh identifier from the monotonic
counter; store the record with `status = "active"`, `current_value =
amount`, `created_at = now` and `expires_at = now + duration_days * 86400`;
return the identifier. -/
def create_commitment (s : State) (now : Nat) (owner : String) (amount : Int)
    (asset_address : String) (rules : CommitmentRules) :
    Except CommitmentError (String × State) :=
  if amount ≤ 0 then .error .InvalidAmount
  else if rules.duration_days = 0 then .error .InvalidRules
  else if 100 < rules.max_loss_percent then .error .InvalidRules
  else
    match transfer_asset s asset_address owner contract_address amount with
    | .error _ => .error .TransferFailed
    | .ok s1 =>
      let id := id_of_counter s.next_id
      let c : Commitment :=
        { commitment_id := id
          owner := owner
          nft_token_id := 0
          rules := rules
          amount := amount
          asset_address := asset_address
          created_at := now
          expires_at := now + rules.duration_days * 86400
          current_value := amount
          status := "active" }
      .ok (id, set_commitment { s1 with next_id := s.next_id + 1 } c)

/-- C2 (spec-modelled): with valid inputs, `create_commitment` succeeds
and returns a fresh identifier (absent from storage before the call, and
the counter invariant is preserved, so identifiers are never reused), and
the stored record has `status = "active"`, `current_value = amount` and
`expires_at = created_at + duration_days * 86400`; with `amount <= 0` it
fails `InvalidAmount`, and with `duration_days = 0` or
`max_loss_percent > 100` it fails `InvalidRules`, persisting nothing. -/
theorem create_commitment_spec_behavior (s : State) (now : Nat) (owner : String)
    (amount : Int) (asset : String) (rules : CommitmentRules)
    (hfresh : ∀ m, s.next_id ≤ m → get_commitment s (id_of_counter m) = none) :
    (0 < amount → 0 < rules.duration_days → rules.max_loss_percent ≤ 100 →
      ∃ s', create_commitment s now owner amount asset rules =
          .ok (id_of_counter s.next_id, s') ∧
        get_commitment s (id_of_counter s.next_id) = none ∧
        get_commitment s' (id_of_counter s.next_id) = some
          { commitment_id := id_of_counter s.next_id
            owner := owner
            nft_token_id := 0
            rules := rules
            amount := amount
            asset_address := asset
            created_at := now
            expires_at := now + rules.duration_days * 86400
            current_value := amount
            status := "active" } ∧
        s'.next_id = s.next_id + 1 ∧
        (∀ m, s'.next_id ≤ m → get_commitment s' (id_of_counter m) = none)) ∧
    (amount ≤ 0 →
      create_commitment s now owner amount asset rules = .error .InvalidAmount) ∧
    (0 < amount → rules.duration_days = 0 →
      create_commitment s now owner amount asset rules = .error .InvalidRules) ∧
    (0 < amount → 0 < rules.duration_days → 100 < rules.max_loss_percent →
      create_commitment s now owner amount asset rules = .error .InvalidRules) := by
  refine ⟨?_, ?_, ?_, ?_⟩
  · intro hamt hdur hmax
    have hcr : create_commitment s now owner amount asset rules =
        .ok (id_of_counter s.next_id, set_commitment
          { s with
              transfers := s.transfers ++ [⟨asset, owner, contract_address, amount⟩],
              next_id := s.next_id + 1 }
          { commitment_id := id_of_counter s.next_id
            owner := owner
            nft_token_id := 0
            rules := rules
            amount := amount
            asset_address := asset
            created_at := now
            expires_at := now + rules.duration_days * 86400
            current_value := amount
            status := "active" }) := by
      unfold create_commitment
      rw [if_neg (by omega), if_neg (by omega), if_neg (by omega)]
      rw [show transfer_asset s asset owner contract_address amount =
          .ok { s with transfers :=
            s.transfers ++ [⟨asset, owner, contract_address, amount⟩] } by
        unfold transfer_asset
        rw [if_neg (by omega)]]
    refine ⟨_, hcr, hfresh _ le_rfl, ?_, rfl, ?_⟩
    · rw [get_commitment_set_commitment, if_pos rfl]
    · intro m hm
      have hm' : s.next_id + 1 ≤ m := hm
      rw [get_commitment_set_commitment,
        if_neg (fun he => by
          have hmn := id_of_counter_injective he
          omega)]
      exact hfresh m (by omega)
  · intro hamt
    unfold create_commitment
    rw [if_pos (by omega)]
  · intro hamt hdur
    unfold create_commitment
    rw [if_neg (by omega), if_pos hdur]
  · intro hamt hdur hmax
    unfold create_commitment
    rw [if_neg (by omega), if_neg (by omega), if_pos hmax]

/-- A state with empty storage and counter zero. -/
def ex_empty : State :=
  { admin := some "admin1"
    initialized := true
    authorized := fun _ => none
    commitments := fun _ => none
    balances := fun _ => none
    tracking := fun _ => none
    next_id := 0
    transfers := [] }

theorem create_commitment_spec_behavior_witness :
    ∃ s', create_commitment ex_empty 1000 "owner1" 500 "asset1" ex_rules =
        .ok (id_of_counter ex_empty.next_id, s') ∧
      get_commitment ex_empty (id_of_counter ex_empty.next_id) = none ∧
      get_commitment s' (id_of_counter ex_empty.next_id) = some
        { commitment_id := id_of_counter ex_empty.next_id
          owner := "owner1"
          nft_token_id := 0
          rules := ex_rules
          amount := 500
          asset_address := "asset1"
          created_at := 1000
          expires_at := 1000 + ex_rules.duration_days * 86400
          current_value := 500
          status := "active" } ∧
      s'.next_id = ex_empty.next_id + 1 ∧
      (∀ m, s'.next_id ≤ m → get_commitment s' (id_of_counter m) = none) :=
  (create_commitment_spec_behavior ex_empty 1000 "owner1" 500 "asset1" ex_rules
    (fun _ _ => rfl)).1 (by decide) (by decide) (by decide)

/-- Modelled from the spec: `update_value` in the source (lib.rs lines
290-295) is an unimplemented TODO stub.  Spec section 4.3: fails `NotFound`
if the commitment is absent; sets `current_value = new_value`; when
`new_value < amount`, computes `loss_percent = floor((amount - new_value) *
100 / amount)` in the widened integer type (0 when `amount <= 0`, by the
section 4.4 numeric policy) and transitions `status -> "violated"` when it
strictly exceeds `max_loss_percent`; it never transitions on duration. -/
def update_value (s : State) (commitment_id : String) (new_value : Int) :
    Except CommitmentError State :=
  match get_commitment s commitment_id with
  | none => .error .NotFound
  | some c =>
    let loss_percent : Int :=
      if new_value < c.amount ∧ 0 < c.amount then
        Int.tdiv ((c.amount - new_value) * 100) c.amount
      else 0
    let status' :=
      if (c.rules.max_loss_percent : Int) < loss_percent then "violated" else c.status
    .ok (set_commitment s
      { c with current_value := new_value, status := status' })

/-- C4 (spec-modelled): `update_value` fails `NotFound` when the commitment
is absent; otherwise it stores the record with `current_value = new_value`,
with status `"violated"` exactly when `new_value < amount` and the
truncated `(amount - new_value) * 100 / amount` strictly exceeds
`max_loss_percent` (for `new_value < amount` the numerator is positive, so
truncation and floor agree), and with the status unchanged otherwise — in
particular it never transitions on duration, which it does not even
consult. -/
theorem update_value_spec_behavior (s : State) (cid : String) (nv : Int) :
    (get_commitment s cid = none → update_value s cid nv = .error .NotFound) ∧
    (∀ c, get_commitment s cid = some c → c.commitment_id = cid →
      ∃ c', update_value s cid nv = .ok (set_commitment s c') ∧
        get_commitment (set_commitment s c') cid = some c' ∧
        c'.current_value = nv ∧
        (nv < c.amount ∧ (c.rules.max_loss_percent : Int) <
            Int.tdiv ((c.amount - nv) * 100) c.amount →
          c'.status = "violated") ∧
        (¬(nv < c.amount ∧ (c.rules.max_loss_percent : Int) <
            Int.tdiv ((c.amount - nv) * 100) c.amount) →
          c'.status = c.status)) := by
  constructor
  · intro hc
    unfold update_value
    rw [hc]
  · intro c hc hid
    have hcond : ((c.rules.max_loss_percent : Int) <
        (if nv < c.amount ∧ 0 < c.amount then
          Int.tdiv ((c.amount - nv) * 100) c.amount else 0)) ↔
        (nv < c.amount ∧ (c.rules.max_loss_percent : Int) <
          Int.tdiv ((c.amount - nv) * 100) c.amount) := by
      split
      · rename_i hg
        exact ⟨fun h => ⟨hg.1, h⟩, fun h => h.2⟩
      · rename_i hg
        constructor
        · intro h
          exact absurd h (by simp)
        · intro h
          exfalso
          rcases h with ⟨hlt, hdiv⟩
          have hle : c.amount ≤ 0 := by
            by_contra hpos
            exact hg ⟨hlt, by omega⟩
          have : Int.tdiv ((c.amount - nv) * 100) c.amount ≤ 0 :=
            Int.tdiv_nonpos (by nlinarith) hle
          have : (0 : Int) ≤ (c.rules.max_loss_percent : Int) := by positivity
          omega
    refine ⟨{ c with
        current_value := nv,
        status := if (c.rules.max_loss_percent : Int) <
            (if nv < c.amount ∧ 0 < c.amount then
              Int.tdiv ((c.amount - nv) * 100) c.amount else 0)
          then "violated" else c.status }, ?_, ?_, rfl, ?_, ?_⟩
    · unfold update_value
      rw [hc]
    · rw [get_commitment_set_commitment]
      simp [hid]
    · intro h
      simp only []
      rw [if_pos (hcond.mpr h)]
    · intro h
      simp only []
      rw [if_neg (fun hx => h (hcond.mp hx))]

theorem update_value_spec_behavior_witness :
    ∃ c', update_value ex_state "c1" 700 = .ok (set_commitment ex_state c') ∧
      get_commitment (set_commitment ex_state c') "c1" = some c' ∧
      c'.current_value = 700 ∧
      ((700 : Int) < ex_commitment.amount ∧
          (ex_commitment.rules.max_loss_percent : Int) <
            Int.tdiv ((ex_commitment.amount - 700) * 100) ex_commitment.amount →
        c'.status = "violated") ∧
      (¬((700 : Int) < ex_commitment.amount ∧
          (ex_commitment.rules.max_loss_percent : Int) <
            Int.tdiv ((ex_commitment.amount - 700) * 100) ex_commitment.amount) →
        c'.status = ex_commitment.status) :=
  (update_value_spec_behavior ex_state "c1" 700).2 ex_commitment (by decide) (by decide)

/-- Modelled from the spec: `settle` in the source (lib.rs lines 372-379)
is an unimplemented TODO stub.  Spec section 4.3: fails `NotFound` if the
commitment is absent; fails `NotExpired` if `now < expires_at`; on an
already-terminal status it fails (`AlreadySettled`-equivalent) and, since
an error commits no state, performs no transfer; otherwise it transfers
`current_value` from contract custody back to the owner and stores the
record with `status = "settled"`. -/
def settle (s : State) (now : Nat) (commitment_id : String) :
    Except CommitmentError State :=
  match get_commitment s commitment_id with
  | none => .error .NotFound
  | some c =>
    if now < c.expires_at then .error .NotExpired
    else if c.status ≠ "active" then .error .AlreadySettled
    else
      match transfer_asset s c.asset_address contract_address c.owner c.current_value with
      | .error e => .error e
      | .ok s1 => .ok (set_commitment s1 { c with status := "settled" })

/-- C5 (spec-modelled): `settle` fails `NotExpired` whenever
`now < expires_at`; when `now >= expires_at`, the status is `"active"` and
`current_value` is positive (so the transfer goes through), it records a
transfer of `current_value` from contract custody to the owner and stores
the record with `status = "settled"`; on a commitment whose status is
already terminal it fails `AlreadySettled`, and since an error carries no
new state, no transfer is recorded — funds never move a second time. -/
theorem settle_spec_behavior (s : State) (now : Nat) (cid : String)
    (c : Commitment) (hc : get_commitment s cid = some c)
    (hid : c.commitment_id = cid) :
    (now < c.expires_at → settle s now cid = .error .NotExpired) ∧
    (c.expires_at ≤ now → c.status = "active" → 0 < c.current_value →
      ∃ s', settle s now cid = .ok s' ∧
        s'.transfers = s.transfers ++
          [⟨c.asset_address, contract_address, c.owner, c.current_value⟩] ∧
        get_commitment s' cid = some { c with status := "settled" }) ∧
    (c.expires_at ≤ now →
      (c.status = "settled" ∨ c.status = "violated" ∨ c.status = "early_exit") →
      settle s now cid = .error .AlreadySettled) := by
  refine ⟨?_, ?_, ?_⟩
  · intro hexp
    simp only [settle, hc]
    rw [if_pos hexp]
  · intro hexp hst hval
    have hset : settle s now cid = .ok (set_commitment
        { s with transfers := s.transfers ++
            [⟨c.asset_address, contract_address, c.owner, c.current_value⟩] }
        { c with status := "settled" }) := by
      simp only [settle, hc]
      rw [if_neg (by omega), if_neg (by simp [hst])]
      rw [show transfer_asset s c.asset_address contract_address c.owner c.current_value =
          .ok { s with transfers := s.transfers ++
            [⟨c.asset_address, contract_address, c.owner, c.current_value⟩] } by
        unfold transfer_asset
        rw [if_neg (by omega)]]
    refine ⟨_, hset, rfl, ?_⟩
    rw [get_commitment_set_commitment]
    simp [hid]
  · intro hexp hst
    simp only [settle, hc]
    rw [if_neg (by omega),
      if_pos (by rcases hst with h | h | h <;> simp [h])]

theorem settle_spec_behavior_witness :
    ∃ s', settle ex_state 3000000 "c1" = .ok s' ∧
      s'.transfers = ex_state.transfers ++
        [⟨ex_commitment.asset_address, contract_address, ex_commitment.owner,
          ex_commitment.current_value⟩] ∧
      get_commitment s' "c1" = some { ex_commitment with status := "settled" } :=
  (settle_spec_behavior ex_state 3000000 "c1" ex_commitment (by decide)
    (by decide)).2.1 (by decide) (by decide) (by decide)
